import Mathlib

/-!
Shallow embedding of `src/Projects/7-1_FinalProjectMilestones/Source/SceneManager.cpp`
(CS-330 scene manager): the texture registry, the material registry, the
transform composer and the per-draw shader-state binder.

Modelling conventions:
- C++ `float` scalars are modelled as exact rationals (`ℚ`); the claims under
  study are structural (composition order, which uniforms are written, which
  list entry wins), not about rounding.
- `glm` 4x4 matrices are modelled as four columns of four rationals, with the
  mathematical matrix product; `cos`/`sin` of the degree-to-radian converted
  angles are abstracted as oracle functions `ℚ → ℚ` supplied to the model.
- OpenGL texture-name state is modelled as a counter plus the list of names
  `glGenTextures` has handed out; `glActiveTexture`/`glBindTexture` pairs are
  recorded as a unit-to-name association list.
- the external `stbi_load` is input: `CreateGLTexture` receives the decode
  result (`Option DecodedImage`) instead of a file name.
- the shader uniform store (`ShaderManager`) is an association list from
  uniform names to values; a setter prepends, lookup takes the latest write.
-/

/-- Model of `glm::vec3`, used for scales, positions and RGB colors. -/
structure Vec3 where
  x : ℚ
  y : ℚ
  z : ℚ
deriving DecidableEq

/-- A homogeneous 4-component column. -/
structure Vec4 where
  x : ℚ
  y : ℚ
  z : ℚ
  w : ℚ
deriving DecidableEq

/-- Model of `glm::mat4`, stored as its four columns (glm is column-major). -/
structure Mat4 where
  c0 : Vec4
  c1 : Vec4
  c2 : Vec4
  c3 : Vec4
deriving DecidableEq

/-- Componentwise sum of two columns. -/
def vec4Add (a b : Vec4) : Vec4 :=
  ⟨a.x + b.x, a.y + b.y, a.z + b.z, a.w + b.w⟩

/-- Scalar multiple of a column. -/
def vec4Smul (k : ℚ) (v : Vec4) : Vec4 :=
  ⟨k * v.x, k * v.y, k * v.z, k * v.w⟩

/-- Matrix-vector product: the linear combination of the columns. -/
def mat4App (m : Mat4) (v : Vec4) : Vec4 :=
  vec4Add (vec4Smul v.x m.c0)
    (vec4Add (vec4Smul v.y m.c1) (vec4Add (vec4Smul v.z m.c2) (vec4Smul v.w m.c3)))

/-- Matrix product, the `operator*` of `glm::mat4`. -/
def mat4Mul (a b : Mat4) : Mat4 :=
  ⟨mat4App a b.c0, mat4App a b.c1, mat4App a b.c2, mat4App a b.c3⟩

/-- Model of `glm::scale(s)`: diagonal scaling matrix. -/
def glmScale (s : Vec3) : Mat4 :=
  ⟨⟨s.x, 0, 0, 0⟩, ⟨0, s.y, 0, 0⟩, ⟨0, 0, s.z, 0⟩, ⟨0, 0, 0, 1⟩⟩

/-- Model of `glm::rotate(angle, vec3(1,0,0))` with `c = cos angle`,
`s = sin angle`. -/
def glmRotateX (c s : ℚ) : Mat4 :=
  ⟨⟨1, 0, 0, 0⟩, ⟨0, c, s, 0⟩, ⟨0, -s, c, 0⟩, ⟨0, 0, 0, 1⟩⟩

/-- Model of `glm::rotate(angle, vec3(0,1,0))` with `c = cos angle`,
`s = sin angle`. -/
def glmRotateY (c s : ℚ) : Mat4 :=
  ⟨⟨c, 0, -s, 0⟩, ⟨0, 1, 0, 0⟩, ⟨s, 0, c, 0⟩, ⟨0, 0, 0, 1⟩⟩

/-- Model of `glm::rotate(angle, vec3(0,0,1))` with `c = cos angle`,
`s = sin angle`. -/
def glmRotateZ (c s : ℚ) : Mat4 :=
  ⟨⟨c, s, 0, 0⟩, ⟨-s, c, 0, 0⟩, ⟨0, 0, 1, 0⟩, ⟨0, 0, 0, 1⟩⟩

/-- Model of `glm::translate(p)`: identity with `p` in the last column. -/
def glmTranslate (p : Vec3) : Mat4 :=
  ⟨⟨1, 0, 0, 0⟩, ⟨0, 1, 0, 0⟩, ⟨0, 0, 1, 0⟩, ⟨p.x, p.y, p.z, 1⟩⟩

/-- One entry of `m_textureIDs`: the GL texture name and the lookup tag. -/
structure TEXTURE_ID where
  ID : Nat
  tag : String
deriving DecidableEq

/-- The `OBJECT_MATERIAL` record from `SceneManager.h` (fields as the cpp
uses them): Phong material data plus its lookup tag. -/
structure OBJECT_MATERIAL where
  ambientColor : Vec3
  ambientStrength : ℚ
  diffuseColor : Vec3
  specularColor : Vec3
  shininess : ℚ
  tag : String
deriving DecidableEq

/-- The registry state of a `SceneManager` instance: `m_textureIDs` together
with `m_loadedTextures` is the prefix of the 16-slot array actually filled,
modelled as a list (`m_loadedTextures = textureIDs.length`); `m_objectMaterials`
is the `std::vector<OBJECT_MATERIAL>`. -/
structure SceneManagerState where
  textureIDs : List TEXTURE_ID
  objectMaterials : List OBJECT_MATERIAL
deriving DecidableEq

/-- OpenGL texture-object state: the next fresh texture name `glGenTextures`
will return, every name handed out so far and not deleted, and the
texture-unit bindings made by `glActiveTexture`/`glBindTexture` pairs. -/
structure GLState where
  nextTextureName : Nat
  allocated : List Nat
  boundUnits : List (Nat × Nat)
deriving DecidableEq

/-- Model of `glGenTextures(1, &id)`: hands out a fresh texture name. -/
def glGenTexture (gl : GLState) : Nat × GLState :=
  (gl.nextTextureName,
    { gl with
      nextTextureName := gl.nextTextureName + 1
      allocated := gl.allocated ++ [gl.nextTextureName] })

/-- Result of the external `stbi_load` decode: width, height and channel
count of the decoded image (the pixel data itself is irrelevant here). -/
structure DecodedImage where
  width : Int
  height : Int
  colorChannels : Int
deriving DecidableEq

/-- Model of `SceneManager::CreateGLTexture` (the registry-relevant behavior):
on decode failure return `false` with nothing changed; on success generate a
texture name, then if the channel count is 3 or 4 upload and append the
`(name, tag)` entry at index `m_loadedTextures` and return `true`; any other
channel count returns `false` before the append, leaving the registry
untouched (the generated GL name is still allocated, as in the source). -/
def CreateGLTexture (gl : GLState) (st : SceneManagerState)
    (decoded : Option DecodedImage) (tag : String) :
    Bool × GLState × SceneManagerState :=
  match decoded with
  | none => (false, gl, st)
  | some image =>
    let genResult := glGenTexture gl
    if image.colorChannels = 3 ∨ image.colorChannels = 4 then
      (true, genResult.2,
        { st with textureIDs := st.textureIDs ++ [{ ID := genResult.1, tag := tag }] })
    else
      (false, genResult.2, st)

/-- Model of `SceneManager::BindGLTextures`: for each `i < m_loadedTextures`,
activate texture unit `i` and bind entry `i`'s texture name to it. The
registry itself is not modified (returned unchanged, mirroring that the
method only touches GL state). -/
def BindGLTextures (gl : GLState) (st : SceneManagerState) :
    GLState × SceneManagerState :=
  ({ gl with boundUnits := st.textureIDs.enum.map (fun p => (p.1, p.2.ID)) }, st)

/-- The per-entry loop body of `SceneManager::DestroyGLTextures`: the source
calls `glGenTextures(1, &m_textureIDs[i].ID)` for each entry, i.e. it
generates a fresh name into each slot instead of deleting the stored one. -/
def destroyAux : List TEXTURE_ID → GLState → List TEXTURE_ID × GLState
  | [], gl => ([], gl)
  | e :: rest, gl =>
    let genResult := glGenTexture gl
    let recResult := destroyAux rest genResult.2
    ({ e with ID := genResult.1 } :: recResult.1, recResult.2)

/-- Model of `SceneManager::DestroyGLTextures`. -/
def DestroyGLTextures (gl : GLState) (st : SceneManagerState) :
    GLState × SceneManagerState :=
  let result := destroyAux st.textureIDs gl
  (result.2, { st with textureIDs := result.1 })

/-- The scan loop of `SceneManager::FindTextureSlot`: walk `m_textureIDs`
from `index` upward; on the first tag match return the current index, at the
end return the initial `-1`. -/
def findSlotAux : List TEXTURE_ID → String → Int → Int
  | [], _, _ => -1
  | e :: rest, tag, idx => if e.tag = tag then idx else findSlotAux rest tag (idx + 1)

/-- Model of `SceneManager::FindTextureSlot`: slot index of the first entry
whose tag matches, `-1` when no entry matches. -/
def FindTextureSlot (st : SceneManagerState) (tag : String) : Int :=
  findSlotAux st.textureIDs tag 0

/-- The scan loop of `SceneManager::FindMaterial`: on the first tag match the
five material fields (not the tag) are copied into the caller's out-parameter;
when no entry matches the out-parameter is left as it came in. -/
def findMaterialAux : List OBJECT_MATERIAL → String → OBJECT_MATERIAL → OBJECT_MATERIAL
  | [], _, material => material
  | entry :: rest, tag, material =>
    if entry.tag = tag then
      { material with
        ambientColor := entry.ambientColor
        ambientStrength := entry.ambientStrength
        diffuseColor := entry.diffuseColor
        specularColor := entry.specularColor
        shininess := entry.shininess }
    else findMaterialAux rest tag material

/-- Model of `SceneManager::FindMaterial(tag, material&)`: returns `false`
only when `m_objectMaterials` is empty; otherwise it scans, copies the first
match into the out-parameter, and then returns `true` unconditionally — the
source ends in `return(true)` (its own comment: it returns `true`, not
`bFound`). The result is the pair (returned bool, out-parameter after the
call). -/
def FindMaterial (st : SceneManagerState) (tag : String)
    (material : OBJECT_MATERIAL) : Bool × OBJECT_MATERIAL :=
  if st.objectMaterials.length = 0 then
    (false, material)
  else
    (true, findMaterialAux st.objectMaterials tag material)

/-- The value space of the shader uniform sink (`ShaderManager` setters used
by the cpp: `setIntValue`, `setFloatValue`, `setVec2Value`, `setVec3Value`,
`setVec4Value`, `setMat4Value`, `setSampler2DValue`, `setBoolValue`). A
sampler2D uniform carries an `int`, so `setSampler2DValue` writes `intV`. -/
inductive UniformValue where
  | intV (i : Int)
  | floatV (q : ℚ)
  | boolV (b : Bool)
  | vec2V (u v : ℚ)
  | vec3V (v : Vec3)
  | vec4V (v : Vec4)
  | mat4V (m : Mat4)
deriving DecidableEq

/-- The active shader program's uniform store: newest write first. -/
def ShaderState := List (String × UniformValue)

instance : DecidableEq ShaderState := by
  unfold ShaderState
  infer_instance

/-- One uniform write: prepend, so lookup sees the latest value. -/
def setUniform (sh : ShaderState) (name : String) (v : UniformValue) : ShaderState :=
  (name, v) :: sh

/-- Read back a uniform: the most recent write under that name, if any. -/
def getUniform : ShaderState → String → Option UniformValue
  | [], _ => none
  | (n, v) :: rest, name => if n = name then some v else getUniform rest name

/-- Name constant `g_ModelName` from the cpp's anonymous namespace. -/
def g_ModelName : String := "model"

/-- Name constant `g_ColorValueName`. -/
def g_ColorValueName : String := "objectColor"

/-- Name constant `g_TextureValueName`. -/
def g_TextureValueName : String := "objectTexture"

/-- Name constant `g_UseTextureName`. -/
def g_UseTextureName : String := "bUseTexture"

/-- Model of `SceneManager::SetTransformations` for a non-NULL shader
manager: build `scale`, `rotationX`, `rotationY`, `rotationZ`, `translation`,
combine them as `translation * rotationX * rotationY * rotationZ * scale`
(C++ `*` is left-associative) and push the result as the `"model"` uniform.
Here `cosDeg d` and `sinDeg d` stand for `cos (glm::radians d)` and
`sin (glm::radians d)`. -/
def SetTransformations (cosDeg sinDeg : ℚ → ℚ) (scaleXYZ : Vec3)
    (XrotationDegrees YrotationDegrees ZrotationDegrees : ℚ)
    (positionXYZ : Vec3) (sh : ShaderState) : ShaderState :=
  let scaleM := glmScale scaleXYZ
  let rotationX := glmRotateX (cosDeg XrotationDegrees) (sinDeg XrotationDegrees)
  let rotationY := glmRotateY (cosDeg YrotationDegrees) (sinDeg YrotationDegrees)
  let rotationZ := glmRotateZ (cosDeg ZrotationDegrees) (sinDeg ZrotationDegrees)
  let translation := glmTranslate positionXYZ
  let modelView :=
    mat4Mul (mat4Mul (mat4Mul (mat4Mul translation rotationX) rotationY) rotationZ) scaleM
  setUniform sh g_ModelName (UniformValue.mat4V modelView)

/-- The transform composition exactly as §4.4 of the spec words it:
`translate * rotateX * rotateY * rotateZ * scale` (translation outermost,
scale innermost). Written from the spec for comparison against
`SetTransformations`; the spec's product is grouped from the inside out to
make the outermost/innermost reading explicit. -/
def ComposeSpec (cosDeg sinDeg : ℚ → ℚ) (scaleXYZ : Vec3)
    (rx ry rz : ℚ) (positionXYZ : Vec3) : Mat4 :=
  mat4Mul (glmTranslate positionXYZ)
    (mat4Mul (glmRotateX (cosDeg rx) (sinDeg rx))
      (mat4Mul (glmRotateY (cosDeg ry) (sinDeg ry))
        (mat4Mul (glmRotateZ (cosDeg rz) (sinDeg rz)) (glmScale scaleXYZ))))

/-- Model of `SceneManager::SetShaderColor` for a non-NULL shader manager:
clear the texture flag (`setIntValue` is passed C++ `false`, which converts
to 0) and set the flat color. -/
def SetShaderColor (sh : ShaderState) (r g b a : ℚ) : ShaderState :=
  setUniform (setUniform sh g_UseTextureName (UniformValue.intV 0))
    g_ColorValueName (UniformValue.vec4V ⟨r, g, b, a⟩)

/-- Model of `SceneManager::SetShaderTexture` for a non-NULL shader manager:
set the texture flag (C++ `true` converts to 1), resolve the tag through
`FindTextureSlot`, and push whatever came back — the sentinel `-1`
included — as the sampler uniform. -/
def SetShaderTexture (st : SceneManagerState) (sh : ShaderState)
    (textureTag : String) : ShaderState :=
  let sh1 := setUniform sh g_UseTextureName (UniformValue.intV 1)
  let textureID := FindTextureSlot st textureTag
  setUniform sh1 g_TextureValueName (UniformValue.intV textureID)

/-- Model of `SceneManager::SetTextureUVScale` for a non-NULL shader
manager. -/
def SetTextureUVScale (sh : ShaderState) (u v : ℚ) : ShaderState :=
  setUniform sh "UVscale" (UniformValue.vec2V u v)

/-- Model of `SceneManager::SetShaderMaterial`: when the material list is
non-empty, call `FindMaterial` with an uninitialized stack local as the
out-parameter (modelled by the `junk` argument: whatever bytes happened to
be on the stack) and, if it returned `true`, push the five material uniforms
from that local. When the list is empty nothing is written. -/
def SetShaderMaterial (st : SceneManagerState) (sh : ShaderState)
    (materialTag : String) (junk : OBJECT_MATERIAL) : ShaderState :=
  if st.objectMaterials.length > 0 then
    let found := FindMaterial st materialTag junk
    if found.1 = true then
      let material := found.2
      setUniform
        (setUniform
          (setUniform
            (setUniform
              (setUniform sh "material.ambientColor" (UniformValue.vec3V material.ambientColor))
              "material.ambientStrength" (UniformValue.floatV material.ambientStrength))
            "material.diffuseColor" (UniformValue.vec3V material.diffuseColor))
          "material.specularColor" (UniformValue.vec3V material.specularColor))
        "material.shininess" (UniformValue.floatV material.shininess)
    else sh
  else sh

/-- The material-append operation performed by each
`m_objectMaterials.push_back(...)` in `SceneManager::DefineObjectMaterials`:
append, never update or overwrite an existing entry. -/
def defineMaterial (st : SceneManagerState) (m : OBJECT_MATERIAL) : SceneManagerState :=
  { st with objectMaterials := st.objectMaterials ++ [m] }

/-- Fold of `CreateGLTexture` over a load list, as `LoadSceneTextures` does:
each element carries the decode result for its file and the tag. -/
def registerAll : List (Option DecodedImage × String) → GLState → SceneManagerState →
    GLState × SceneManagerState
  | [], gl, st => (gl, st)
  | (decoded, tag) :: rest, gl, st =>
    let r := CreateGLTexture gl st decoded tag
    registerAll rest r.2.1 r.2.2

/-- Model of `SceneManager::DefineObjectMaterials`: pushes the six scene
materials ("ceramic", "porcelain", "metal", "paper", "plastic", "drywall"),
each with ambient color `vec3(.1)`, ambient strength `.75`, diffuse color
`vec3(.25)`, specular color `vec3(.75)` and shininess `16`, onto
`m_objectMaterials`. -/
def DefineObjectMaterials (st : SceneManagerState) : SceneManagerState :=
  let ambC : ℚ := 1/10
  let ambS : ℚ := 3/4
  let difC : ℚ := 1/4
  let specC : ℚ := 3/4
  let shin : ℚ := 16
  let mk := fun (tag : String) =>
    ({ ambientColor := ⟨ambC, ambC, ambC⟩
       ambientStrength := ambS
       diffuseColor := ⟨difC, difC, difC⟩
       specularColor := ⟨specC, specC, specC⟩
       shininess := shin
       tag := tag } : OBJECT_MATERIAL)
  defineMaterial
    (defineMaterial
      (defineMaterial
        (defineMaterial
          (defineMaterial (defineMaterial st (mk "ceramic")) (mk "porcelain"))
          (mk "metal"))
        (mk "paper"))
      (mk "plastic"))
    (mk "drywall")

/-- A stand-in for the indeterminate bytes of the uninitialized
`OBJECT_MATERIAL material;` stack local in `SetShaderMaterial`: recognizable
garbage values. -/
def junkMat : OBJECT_MATERIAL :=
  { ambientColor := ⟨7, 7, 7⟩
    ambientStrength := 7
    diffuseColor := ⟨7, 7, 7⟩
    specularColor := ⟨7, 7, 7⟩
    shininess := 999
    tag := "" }

/-- The scene-manager state right after `DefineObjectMaterials` on a fresh
instance: six materials defined, no textures. -/
def stWithMaterials : SceneManagerState := DefineObjectMaterials ⟨[], []⟩

/-- The GL state after one successful texture registration on a fresh
instance: texture name 0 allocated. -/
def glOneTexture : GLState := ⟨1, [0], []⟩

/-- The registry holding the one texture of `glOneTexture`, under tag
"ceramic". -/
def stOneTexture : SceneManagerState := ⟨[⟨0, "ceramic"⟩], []⟩

/-- The success test of one `CreateGLTexture` call, over the decode result it
receives: the image decoded and has 3 or 4 channels. -/
def channelsOk : Option DecodedImage → Bool
  | none => false
  | some image => image.colorChannels == 3 || image.colorChannels == 4

/-- The sublist of a load list that `CreateGLTexture` actually registers. -/
def successfulLoads (loads : List (Option DecodedImage × String)) :
    List (Option DecodedImage × String) :=
  loads.filter (fun p => channelsOk p.1)

/-- The tag-level version of the texture-slot scan: `findSlotAux` only
inspects the tags of the entries. -/
def findSlotTags : List String → String → Int → Int
  | [], _, _ => -1
  | t :: rest, tag, idx => if t = tag then idx else findSlotTags rest tag (idx + 1)

/-- A load list with a failing registration (2 channels) between two
successful ones: "A" and "B" are the first and second successful tags. -/
def mixedLoads : List (Option DecodedImage × String) :=
  [(some ⟨4, 4, 3⟩, "A"), (some ⟨4, 4, 2⟩, "X"), (some ⟨2, 2, 4⟩, "B")]

/-- A first definition of tag "ceramic". -/
def dupMatA : OBJECT_MATERIAL :=
  ⟨⟨1, 2, 3⟩, 4, ⟨5, 6, 7⟩, ⟨8, 9, 10⟩, 11, "ceramic"⟩

/-- A later, conflicting re-definition of tag "ceramic". -/
def dupMatB : OBJECT_MATERIAL :=
  ⟨⟨20, 21, 22⟩, 23, ⟨24, 25, 26⟩, ⟨27, 28, 29⟩, 30, "ceramic"⟩

/-- A 3-channel decode result, which `CreateGLTexture` always accepts. -/
def img3 : DecodedImage := ⟨4, 4, 3⟩

/-- Seventeen decodable loads with distinct tags — one more than the 16
texture units the source's own comments allow. -/
def seventeenLoads : List (Option DecodedImage × String) :=
  [(some img3, "tA"), (some img3, "tB"), (some img3, "tC"), (some img3, "tD"),
   (some img3, "tE"), (some img3, "tF"), (some img3, "tG"), (some img3, "tH"),
   (some img3, "tI"), (some img3, "tJ"), (some img3, "tK"), (some img3, "tL"),
   (some img3, "tM"), (some img3, "tN"), (some img3, "tO"), (some img3, "tP"),
   (some img3, "tQ")]

/-- The matrix product is associative, so the source's left-associated
`translation * rotationX * rotationY * rotationZ * scale` and the spec's
outside-in reading denote the same matrix. -/
theorem mat4Mul_assoc (a b c : Mat4) :
    mat4Mul (mat4Mul a b) c = mat4Mul a (mat4Mul b c) := by
  obtain ⟨⟨a00, a01, a02, a03⟩, ⟨a10, a11, a12, a13⟩,
    ⟨a20, a21, a22, a23⟩, ⟨a30, a31, a32, a33⟩⟩ := a
  obtain ⟨⟨b00, b01, b02, b03⟩, ⟨b10, b11, b12, b13⟩,
    ⟨b20, b21, b22, b23⟩, ⟨b30, b31, b32, b33⟩⟩ := b
  obtain ⟨⟨c00, c01, c02, c03⟩, ⟨c10, c11, c12, c13⟩,
    ⟨c20, c21, c22, c23⟩, ⟨c30, c31, c32, c33⟩⟩ := c
  simp only [mat4Mul, mat4App, vec4Add, vec4Smul, Mat4.mk.injEq, Vec4.mk.injEq]
  and_intros <;> ring

/-- If no registered entry carries the tag, the scan falls off the end of the
list and keeps the initial `-1`. -/
theorem findSlotAux_of_all_ne (l : List TEXTURE_ID) (tag : String) (idx : Int)
    (h : ∀ e ∈ l, e.tag ≠ tag) : findSlotAux l tag idx = -1 := by
  induction l generalizing idx with
  | nil => rfl
  | cons e rest ih =>
    simp only [findSlotAux]
    rw [if_neg (h e (List.mem_cons_self e rest))]
    exact ih _ (fun x hx => h x (List.mem_cons_of_mem _ hx))

/-- After folding `CreateGLTexture` over a load list, the registry's tags are
the starting tags followed by the tags of the successful loads, in
registration order (every failure path leaves the registry untouched). -/
theorem registerAll_tags (loads : List (Option DecodedImage × String))
    (gl : GLState) (st : SceneManagerState) :
    (registerAll loads gl st).2.textureIDs.map TEXTURE_ID.tag
      = st.textureIDs.map TEXTURE_ID.tag ++ (successfulLoads loads).map Prod.snd := by
  induction loads generalizing gl st with
  | nil => simp [registerAll, successfulLoads]
  | cons p rest ih =>
    obtain ⟨d, t⟩ := p
    cases d with
    | none =>
      simp only [registerAll, CreateGLTexture]
      rw [ih]
      simp [successfulLoads, channelsOk]
    | some image =>
      by_cases h : image.colorChannels = 3 ∨ image.colorChannels = 4
      · have hb : channelsOk (some image) = true := by
          rcases h with h3 | h4
          · simp [channelsOk, h3]
          · simp [channelsOk, h4]
        simp only [registerAll, CreateGLTexture, if_pos h]
        rw [ih]
        simp [successfulLoads, hb, List.filter_cons]
      · have h3 : image.colorChannels ≠ 3 := fun hc => h (Or.inl hc)
        have h4 : image.colorChannels ≠ 4 := fun hc => h (Or.inr hc)
        have hb : channelsOk (some image) = false := by
          simp [channelsOk, h3, h4]
        simp only [registerAll, CreateGLTexture, if_neg h]
        rw [ih]
        simp [successfulLoads, hb, List.filter_cons]

/-- The entry-level scan agrees with the tag-level scan. -/
theorem findSlotAux_eq_findSlotTags (l : List TEXTURE_ID) (tag : String) (idx : Int) :
    findSlotAux l tag idx = findSlotTags (l.map TEXTURE_ID.tag) tag idx := by
  induction l generalizing idx with
  | nil => rfl
  | cons e rest ih =>
    simp only [findSlotAux, List.map_cons, findSlotTags]
    by_cases h : e.tag = tag
    · rw [if_pos h, if_pos h]
    · rw [if_neg h, if_neg h, ih]

/-- On a duplicate-free tag list the scan started at `idx` finds the `k`-th
tag at offset `k`. -/
theorem findSlotTags_get_of_nodup (ts : List String) (k : Nat) (hk : k < ts.length)
    (idx : Int) (hnd : ts.Nodup) :
    findSlotTags ts (ts.get ⟨k, hk⟩) idx = idx + k := by
  induction ts generalizing k idx with
  | nil => exact absurd hk (by simp)
  | cons t rest ih =>
    rcases List.nodup_cons.mp hnd with ⟨hnotin, hndrest⟩
    cases k with
    | zero => simp [findSlotTags]
    | succ k =>
      have hk' : k < rest.length := by simpa using hk
      have hne : t ≠ rest.get ⟨k, hk'⟩ := by
        intro hEq
        exact hnotin (hEq ▸ List.get_mem rest k hk')
      simp only [List.get_cons_succ, findSlotTags]
      rw [if_neg hne]
      rw [ih k hk' (idx + 1) hndrest]
      push_cast
      ring

/-- The scan of `FindMaterial` copies the fields of the first entry carrying
the tag, no matter what follows it. -/
theorem findMaterialAux_first_match (l1 : List OBJECT_MATERIAL)
    (e : OBJECT_MATERIAL) (l2 : List OBJECT_MATERIAL) (tag : String)
    (junk : OBJECT_MATERIAL) (h1 : ∀ x ∈ l1, x.tag ≠ tag) (he : e.tag = tag) :
    findMaterialAux (l1 ++ e :: l2) tag junk
      = { junk with
          ambientColor := e.ambientColor
          ambientStrength := e.ambientStrength
          diffuseColor := e.diffuseColor
          specularColor := e.specularColor
          shininess := e.shininess } := by
  induction l1 with
  | nil =>
    simp only [List.nil_append, findMaterialAux]
    rw [if_pos he]
  | cons x rest ih =>
    simp only [List.cons_append, findMaterialAux]
    rw [if_neg (h1 x (List.mem_cons_self x rest))]
    exact ih (fun y hy => h1 y (List.mem_cons_of_mem _ hy))

/-- C1: the claim says `FindMaterial` on a non-empty registry returns `false`
for a tag that was never defined. The code violates it: with the six scene
materials defined, `FindMaterial "missing"` returns `true` (the function ends
in `return(true)` instead of returning `bFound`), while the out-parameter
keeps its incoming (uninitialized) contents. -/
theorem FindMaterial_unknown_tag_nonempty_returns_true :
    (FindMaterial stWithMaterials "missing" junkMat).1 = true ∧
    (FindMaterial stWithMaterials "missing" junkMat).2 = junkMat ∧
    stWithMaterials.objectMaterials.length = 6 ∧
    (∀ m ∈ stWithMaterials.objectMaterials, m.tag ≠ "missing") := by decide

/-- C2: the claim says a failed material lookup leaves all five material
uniforms unwritten. The code violates it: with a non-empty registry and an
unknown tag, `FindMaterial` reports success, so `SetShaderMaterial` pushes
all five uniforms from the uninitialized local (here the recognizable
`junkMat` garbage), clobbering the previous material state. -/
theorem SetShaderMaterial_unknown_tag_writes_junk :
    getUniform (SetShaderMaterial stWithMaterials [] "missing" junkMat)
        "material.shininess" = some (UniformValue.floatV 999) ∧
    getUniform (SetShaderMaterial stWithMaterials [] "missing" junkMat)
        "material.ambientColor" = some (UniformValue.vec3V ⟨7, 7, 7⟩) ∧
    getUniform (SetShaderMaterial stWithMaterials [] "missing" junkMat)
        "material.ambientStrength" = some (UniformValue.floatV 7) ∧
    getUniform (SetShaderMaterial stWithMaterials [] "missing" junkMat)
        "material.diffuseColor" = some (UniformValue.vec3V ⟨7, 7, 7⟩) ∧
    getUniform (SetShaderMaterial stWithMaterials [] "missing" junkMat)
        "material.specularColor" = some (UniformValue.vec3V ⟨7, 7, 7⟩) ∧
    (∀ m ∈ stWithMaterials.objectMaterials, m.tag ≠ "missing") := by decide

/-- C3: the claim says `DestroyGLTextures` frees all GPU-side textures and
empties the registry. The code violates it: the loop body calls
`glGenTextures(1, &m_textureIDs[i].ID)` — name generation — instead of
deletion, so the old GPU texture name 0 is still allocated, a new
name 1 has additionally been allocated, and `m_loadedTextures` is still 1,
not 0. -/
theorem DestroyGLTextures_frees_nothing_and_keeps_registry :
    (DestroyGLTextures glOneTexture stOneTexture).2.textureIDs.length = 1 ∧
    0 ∈ (DestroyGLTextures glOneTexture stOneTexture).1.allocated ∧
    (DestroyGLTextures glOneTexture stOneTexture).1.allocated = [0, 1] := by decide

/-- C4: for all scale, rotation and position inputs (with the trigonometric
values of the converted angles supplied by the `cosDeg`/`sinDeg` oracles),
`SetTransformations` pushes to the `"model"` uniform exactly the matrix
`translate(position) * rotateX * rotateY * rotateZ * scale` of the spec
(`ComposeSpec`), and that matrix takes the origin basis point `(0,0,0,1)`
to `position` — translation outermost, scale innermost. -/
theorem SetTransformations_pushes_spec_composition
    (cosDeg sinDeg : ℚ → ℚ) (scaleXYZ : Vec3) (rx ry rz : ℚ)
    (positionXYZ : Vec3) (sh : ShaderState) :
    getUniform (SetTransformations cosDeg sinDeg scaleXYZ rx ry rz positionXYZ sh)
        g_ModelName
      = some (UniformValue.mat4V (ComposeSpec cosDeg sinDeg scaleXYZ rx ry rz positionXYZ)) ∧
    mat4App (ComposeSpec cosDeg sinDeg scaleXYZ rx ry rz positionXYZ) ⟨0, 0, 0, 1⟩
      = ⟨positionXYZ.x, positionXYZ.y, positionXYZ.z, 1⟩ := by
  constructor
  · simp [SetTransformations, setUniform, getUniform, ComposeSpec, mat4Mul_assoc]
  · obtain ⟨px, py, pz⟩ := positionXYZ
    obtain ⟨sx, sy, sz⟩ := scaleXYZ
    simp only [ComposeSpec, glmTranslate, glmRotateX, glmRotateY, glmRotateZ, glmScale,
      mat4Mul, mat4App, vec4Add, vec4Smul, Vec4.mk.injEq]
    and_intros <;> ring

/-- C5: with a duplicate-free set of tags (the spec's uniqueness invariant),
looking a tag up after `BindGLTextures` returns exactly the position of that
tag's successful registration in registration order, and the registry holds
one entry per successful registration — so every such slot lies in
`[0, N)` for `N` the number of successfully registered textures. -/
theorem FindTextureSlot_registration_order
    (loads : List (Option DecodedImage × String)) (gl0 : GLState) (k : Nat)
    (hnd : ((successfulLoads loads).map Prod.snd).Nodup)
    (hk : k < (successfulLoads loads).length) :
    FindTextureSlot
        (BindGLTextures (registerAll loads gl0 ⟨[], []⟩).1
          (registerAll loads gl0 ⟨[], []⟩).2).2
        ((successfulLoads loads).get ⟨k, hk⟩).2 = k ∧
    (registerAll loads gl0 ⟨[], []⟩).2.textureIDs.length
      = (successfulLoads loads).length := by
  have hmap :
      (registerAll loads gl0 ⟨[], []⟩).2.textureIDs.map TEXTURE_ID.tag
        = (successfulLoads loads).map Prod.snd := by
    have h := registerAll_tags loads gl0 ⟨[], []⟩
    simpa using h
  have hlen :
      (registerAll loads gl0 ⟨[], []⟩).2.textureIDs.length
        = (successfulLoads loads).length := by
    have h := congrArg List.length hmap
    simpa using h
  refine ⟨?_, hlen⟩
  show FindTextureSlot (registerAll loads gl0 ⟨[], []⟩).2 _ = _
  unfold FindTextureSlot
  rw [findSlotAux_eq_findSlotTags, hmap]
  have hk2 : k < ((successfulLoads loads).map Prod.snd).length := by simpa using hk
  have hget : ((successfulLoads loads).map Prod.snd).get ⟨k, hk2⟩
      = ((successfulLoads loads).get ⟨k, hk⟩).2 := by
    simp [List.get_eq_getElem, List.getElem_map]
  rw [← hget, findSlotTags_get_of_nodup _ k hk2 0 hnd]
  simp

/-- Witness for C5 at a concrete input: after registering "A" (3-channel,
succeeds), "X" (2-channel, fails) and "B" (4-channel, succeeds) and binding,
"B" — the second successful registration — resolves to slot 1 and the
registry has 2 entries. -/
theorem FindTextureSlot_registration_order_witness :
    FindTextureSlot
        (BindGLTextures (registerAll mixedLoads ⟨0, [], []⟩ ⟨[], []⟩).1
          (registerAll mixedLoads ⟨0, [], []⟩ ⟨[], []⟩).2).2 "B" = 1 ∧
    (registerAll mixedLoads ⟨0, [], []⟩ ⟨[], []⟩).2.textureIDs.length = 2 :=
  FindTextureSlot_registration_order mixedLoads ⟨0, [], []⟩ 1 (by decide) (by decide)

/-- C6: for a tag no registered texture carries, `FindTextureSlot` returns the
sentinel `-1` (no failure is raised — the function is total), and
`SetShaderTexture` with that tag pushes `-1` as the sampler uniform
(`"objectTexture"`), having first set the texture flag. -/
theorem FindTextureSlot_unknown_tag_sentinel (st : SceneManagerState)
    (sh : ShaderState) (tag : String) (h : ∀ e ∈ st.textureIDs, e.tag ≠ tag) :
    FindTextureSlot st tag = -1 ∧
    SetShaderTexture st sh tag
      = (g_TextureValueName, UniformValue.intV (-1)) ::
        (g_UseTextureName, UniformValue.intV 1) :: sh ∧
    getUniform (SetShaderTexture st sh tag) g_TextureValueName
      = some (UniformValue.intV (-1)) := by
  have hs : FindTextureSlot st tag = -1 := findSlotAux_of_all_ne _ _ _ h
  refine ⟨hs, ?_, ?_⟩
  · simp [SetShaderTexture, setUniform, hs]
  · simp [SetShaderTexture, setUniform, getUniform, hs]

/-- Witness for C6 at a concrete input: one registered texture ("ceramic"),
lookup of the never-registered tag "missing". -/
theorem FindTextureSlot_unknown_tag_sentinel_witness :
    FindTextureSlot stOneTexture "missing" = -1 ∧
    SetShaderTexture stOneTexture [] "missing"
      = (g_TextureValueName, UniformValue.intV (-1)) ::
        (g_UseTextureName, UniformValue.intV 1) :: [] ∧
    getUniform (SetShaderTexture stOneTexture [] "missing") g_TextureValueName
      = some (UniformValue.intV (-1)) :=
  FindTextureSlot_unknown_tag_sentinel stOneTexture [] "missing" (by decide)

/-- C7: registering a decoded image succeeds exactly when the channel count
is 3 or 4; on any other channel count the call returns `false` and the
registry entry count is unchanged (the entry is not added), while a 3- or
4-channel image adds exactly one entry. -/
theorem CreateGLTexture_channel_count_gate (gl : GLState) (st : SceneManagerState)
    (image : DecodedImage) (tag : String) :
    (CreateGLTexture gl st (some image) tag).1
      = (image.colorChannels == 3 || image.colorChannels == 4) ∧
    (CreateGLTexture gl st (some image) tag).2.2.textureIDs.length
      = (if image.colorChannels = 3 ∨ image.colorChannels = 4
         then st.textureIDs.length + 1 else st.textureIDs.length) := by
  by_cases h : image.colorChannels = 3 ∨ image.colorChannels = 4
  · have hb : (image.colorChannels == 3 || image.colorChannels == 4) = true := by
      rcases h with h3 | h4
      · simp [h3]
      · simp [h4]
    simp [CreateGLTexture, h, hb]
  · have h3 : image.colorChannels ≠ 3 := fun hc => h (Or.inl hc)
    have h4 : image.colorChannels ≠ 4 := fun hc => h (Or.inr hc)
    simp [CreateGLTexture, h, h3, h4]

/-- C8: when a tag is defined more than once (here: `e1` first, `e2` later,
both carrying the tag, `e2` possibly among further entries), `FindMaterial`
hands back the five fields of the first-defined entry `e1` — first-registered
wins — and the define operation (`push_back`) appends, leaving every existing
entry in place. -/
theorem FindMaterial_first_defined_wins (st : SceneManagerState)
    (l1 l2 l3 : List OBJECT_MATERIAL) (e1 e2 : OBJECT_MATERIAL) (tag : String)
    (junk m : OBJECT_MATERIAL)
    (hst : st.objectMaterials = l1 ++ (e1 :: (l2 ++ (e2 :: l3))))
    (h1 : ∀ x ∈ l1, x.tag ≠ tag) (he1 : e1.tag = tag) (_he2 : e2.tag = tag) :
    (FindMaterial st tag junk).2
      = { junk with
          ambientColor := e1.ambientColor
          ambientStrength := e1.ambientStrength
          diffuseColor := e1.diffuseColor
          specularColor := e1.specularColor
          shininess := e1.shininess } ∧
    (defineMaterial st m).objectMaterials = st.objectMaterials ++ [m] := by
  have hne : st.objectMaterials.length ≠ 0 := by
    rw [hst]
    simp
  refine ⟨?_, rfl⟩
  have hform : FindMaterial st tag junk
      = (true, findMaterialAux st.objectMaterials tag junk) := by
    unfold FindMaterial
    rw [if_neg hne]
  rw [hform]
  show findMaterialAux st.objectMaterials tag junk = _
  rw [hst]
  exact findMaterialAux_first_match l1 e1 (l2 ++ (e2 :: l3)) tag junk h1 he1

/-- Witness for C8 at a concrete input: "ceramic" defined twice; lookup
returns the first definition's fields and a further define appends. -/
theorem FindMaterial_first_defined_wins_witness :
    (FindMaterial ⟨[], [dupMatA, dupMatB]⟩ "ceramic" junkMat).2
      = { junkMat with
          ambientColor := dupMatA.ambientColor
          ambientStrength := dupMatA.ambientStrength
          diffuseColor := dupMatA.diffuseColor
          specularColor := dupMatA.specularColor
          shininess := dupMatA.shininess } ∧
    (defineMaterial ⟨[], [dupMatA, dupMatB]⟩ junkMat).objectMaterials
      = [dupMatA, dupMatB] ++ [junkMat] :=
  FindMaterial_first_defined_wins ⟨[], [dupMatA, dupMatB]⟩ [] [] [] dupMatA dupMatB
    "ceramic" junkMat junkMat rfl (by decide) rfl rfl

/-- C9: the claim says every slot of a bound texture — and every non-sentinel
lookup result — lies in [0, 16). The code violates it: `CreateGLTexture`
never checks `m_loadedTextures` against the 16-entry capacity, so after 17
successful registrations the 17th tag resolves to slot 16 and
`BindGLTextures` activates texture unit 16, both outside [0, 16). -/
theorem texture_slot_exceeds_unit_limit_after_17_registers :
    (registerAll seventeenLoads ⟨0, [], []⟩ ⟨[], []⟩).2.textureIDs.length = 17 ∧
    FindTextureSlot
        (BindGLTextures (registerAll seventeenLoads ⟨0, [], []⟩ ⟨[], []⟩).1
          (registerAll seventeenLoads ⟨0, [], []⟩ ⟨[], []⟩).2).2 "tQ" = 16 ∧
    (16, 16) ∈ (BindGLTextures (registerAll seventeenLoads ⟨0, [], []⟩ ⟨[], []⟩).1
          (registerAll seventeenLoads ⟨0, [], []⟩ ⟨[], []⟩).2).1.boundUnits := by
  decide

/-- C10: for every tag, resolved or not, `SetShaderTexture` first sets the
`"bUseTexture"` flag (to C++ `true`, i.e. 1) and then pushes whatever
`FindTextureSlot` returned as the sampler uniform; so even for an
unregistered tag the flag reads back as set — texture sampling stays enabled
rather than falling back to solid color. -/
theorem SetShaderTexture_always_enables_texture_flag (st : SceneManagerState)
    (sh : ShaderState) (tag : String) :
    SetShaderTexture st sh tag
      = (g_TextureValueName, UniformValue.intV (FindTextureSlot st tag)) ::
        (g_UseTextureName, UniformValue.intV 1) :: sh ∧
    getUniform (SetShaderTexture st sh tag) g_UseTextureName
      = some (UniformValue.intV 1) ∧
    getUniform (SetShaderTexture st sh tag) g_TextureValueName
      = some (UniformValue.intV (FindTextureSlot st tag)) := by
  refine ⟨rfl, ?_, ?_⟩
  · simp [SetShaderTexture, setUniform, getUniform, g_TextureValueName, g_UseTextureName]
  · simp [SetShaderTexture, setUniform, getUniform, g_TextureValueName, g_UseTextureName]
